import Mathlib

/-!
Shallow embedding of the mock-API query handlers of the vibes_app
repository (the msw handler file: stock/bond/instrument fixture store plus
the five request handlers), together with proofs of the behavioural claims
about them.

Numbers: the TypeScript source manipulates JavaScript numbers; every
numeric literal occurring in the fixtures and in the filter comparisons is
a small decimal, so numbers are embedded as exact rationals (`ℚ`, written
with `mkRat` so that concrete comparisons evaluate in the kernel).
Strings are embedded as Lean `String`s; string operations used by the
handlers (`toLowerCase`, `includes`, `trim`) are defined below on the
character lists, restricted to the character ranges the fixtures use.
-/

set_option maxRecDepth 8000

namespace Vibes

/-- Character-level model of `String.prototype.toLowerCase` (ASCII range,
which covers all fixture data and is the behaviour of `Char.toLower`). -/
def lowerChars (l : List Char) : List Char := l.map Char.toLower

/-- Model of `toLowerCase` on whole strings. -/
def strLower (s : String) : String := String.mk (lowerChars s.data)

/-- Does the second list start with the first one? -/
def beginsWith : List Char → List Char → Bool
  | [], _ => true
  | _ :: _, [] => false
  | a :: as, b :: bs => a == b && beginsWith as bs

/-- Does the second list contain the first one as a contiguous run?
Model of `String.prototype.includes` (needle first, haystack second). -/
def hasSub (needle : List Char) : List Char → Bool
  | [] => needle.isEmpty
  | c :: cs => beginsWith needle (c :: cs) || hasSub needle cs

/-- The whitespace characters recognised by JavaScript `trim` /
`Number` coercion (ASCII whitespace plus NBSP and BOM). -/
def jsWhitespace (c : Char) : Bool :=
  c == ' ' || c == '\t' || c == '\n' || c == '\r' ||
  c == '\x0b' || c == '\x0c' || c == ' ' || c == '﻿'

/-- Model of `String.prototype.trim` on character lists. -/
def trimChars (l : List Char) : List Char :=
  ((l.dropWhile jsWhitespace).reverse.dropWhile jsWhitespace).reverse

/-- A JavaScript number as far as the handlers observe it: either NaN, an
infinity, or a finite value (all finite fixture values are exact
decimals, embedded as rationals). -/
inductive JSNum where
  | nan
  | posInf
  | negInf
  | num (q : ℚ)
deriving DecidableEq

/-- JavaScript `<` on numbers: every comparison with NaN is false. -/
def JSNum.jlt : JSNum → JSNum → Bool
  | .nan, _ => false
  | _, .nan => false
  | .negInf, .negInf => false
  | .negInf, _ => true
  | _, .negInf => false
  | .posInf, _ => false
  | _, .posInf => true
  | .num a, .num b => decide (a < b)

/-- JavaScript `>` on numbers. -/
def JSNum.jgt (a b : JSNum) : Bool := JSNum.jlt b a

/-- Unary minus on a parsed JavaScript number. -/
def JSNum.neg : JSNum → JSNum
  | .nan => .nan
  | .posInf => .negInf
  | .negInf => .posInf
  | .num q => .num (-q)

/-- Numeric value of one digit character (decimal or hexadecimal). -/
def digitVal (c : Char) : Nat :=
  if c.isDigit then c.toNat - 48
  else if decide ('a' ≤ c) && decide (c ≤ 'f') then c.toNat - 87
  else if decide ('A' ≤ c) && decide (c ≤ 'F') then c.toNat - 55
  else 0

/-- Value of a digit run in the given base. -/
def digitsVal (base : Nat) (ds : List Char) : Nat :=
  ds.foldl (fun a c => base * a + digitVal c) 0

def isHexDigitChar (c : Char) : Bool :=
  c.isDigit || (decide ('a' ≤ c) && decide (c ≤ 'f')) ||
    (decide ('A' ≤ c) && decide (c ≤ 'F'))

def isOctDigitChar (c : Char) : Bool := decide ('0' ≤ c) && decide (c ≤ '7')

def isBinDigitChar (c : Char) : Bool := c == '0' || c == '1'

/-- Signed exponent digits after the `e`/`E` of a decimal literal. -/
def expVal : List Char → Option Int
  | '+' :: ds =>
    if !ds.isEmpty && ds.all Char.isDigit then some (Int.ofNat (digitsVal 10 ds)) else none
  | '-' :: ds =>
    if !ds.isEmpty && ds.all Char.isDigit then some (-(Int.ofNat (digitsVal 10 ds))) else none
  | ds =>
    if !ds.isEmpty && ds.all Char.isDigit then some (Int.ofNat (digitsVal 10 ds)) else none

/-- The optional exponent tail of a decimal literal; `[]` means exponent 0,
anything else must be `e`/`E` followed by a valid signed digit run. -/
def expPart : List Char → Option Int
  | [] => some 0
  | c :: r => if c == 'e' || c == 'E' then expVal r else none

/-- Exact value of integer digits `ip`, fraction digits `fp` and exponent
`e`: `ip.fp × 10^e` as a rational. -/
def decValue (ip fp : List Char) (e : Int) : ℚ :=
  let m := digitsVal 10 (ip ++ fp)
  let ee : Int := e - Int.ofNat fp.length
  if 0 ≤ ee then mkRat (Int.ofNat (m * 10 ^ ee.toNat)) 1 else mkRat (Int.ofNat m) (10 ^ (-ee).toNat)

/-- Parse an unsigned decimal literal (`digits [. digits] [exp]` or
`. digits [exp]`), the decimal part of the `StringNumericLiteral`
grammar used by JavaScript `Number(string)`. -/
def parseDec (l : List Char) : Option ℚ :=
  let ip := l.takeWhile Char.isDigit
  let r1 := l.dropWhile Char.isDigit
  match r1 with
  | '.' :: r2 =>
    let fp := r2.takeWhile Char.isDigit
    let r3 := r2.dropWhile Char.isDigit
    if ip.isEmpty && fp.isEmpty then none
    else (expPart r3).map (fun e => decValue ip fp e)
  | r1x => if ip.isEmpty then none else (expPart r1x).map (fun e => decValue ip [] e)

/-- Literal forms that may follow an explicit sign: `Infinity` or a
decimal literal (radix forms such as `0x…` admit no sign in JavaScript). -/
def jsSigned (l : List Char) : JSNum :=
  if l = "Infinity".data then JSNum.posInf
  else match parseDec l with
    | some q => JSNum.num q
    | none => JSNum.nan

/-- Unsigned literal forms: hexadecimal, octal and binary integer
literals, otherwise the signed forms. -/
def jsUnsigned (l : List Char) : JSNum :=
  match l with
  | '0' :: 'x' :: ds =>
    if !ds.isEmpty && ds.all isHexDigitChar then JSNum.num (mkRat (Int.ofNat (digitsVal 16 ds)) 1)
    else JSNum.nan
  | '0' :: 'X' :: ds =>
    if !ds.isEmpty && ds.all isHexDigitChar then JSNum.num (mkRat (Int.ofNat (digitsVal 16 ds)) 1)
    else JSNum.nan
  | '0' :: 'o' :: ds =>
    if !ds.isEmpty && ds.all isOctDigitChar then JSNum.num (mkRat (Int.ofNat (digitsVal 8 ds)) 1)
    else JSNum.nan
  | '0' :: 'O' :: ds =>
    if !ds.isEmpty && ds.all isOctDigitChar then JSNum.num (mkRat (Int.ofNat (digitsVal 8 ds)) 1)
    else JSNum.nan
  | '0' :: 'b' :: ds =>
    if !ds.isEmpty && ds.all isBinDigitChar then JSNum.num (mkRat (Int.ofNat (digitsVal 2 ds)) 1)
    else JSNum.nan
  | '0' :: 'B' :: ds =>
    if !ds.isEmpty && ds.all isBinDigitChar then JSNum.num (mkRat (Int.ofNat (digitsVal 2 ds)) 1)
    else JSNum.nan
  | _ => jsSigned l

/-- Model of JavaScript `Number(string)`: trim, empty means 0, optional
sign, then a numeric literal; anything else is NaN. -/
def jsNumberOfChars (l : List Char) : JSNum :=
  let t := trimChars l
  if t.isEmpty then JSNum.num 0
  else match t with
    | '+' :: r => jsSigned r
    | '-' :: r => JSNum.neg (jsSigned r)
    | _ => jsUnsigned t

/-- Model of `Number(value)` as applied by the handler's `parseNumber`. -/
def jsNumber (s : String) : JSNum := jsNumberOfChars s.data

/-- The handler's `parseNumber`: `null` or a blank string give
`undefined` (no bound), anything else is coerced with `Number`. -/
def parseNumber (v : Option String) : Option JSNum :=
  match v with
  | none => none
  | some s => if (trimChars s.data).isEmpty then none else some (jsNumber s)


/-- Stock ratings (the source type union `'Buy' | 'Hold' | 'Sell'`). -/
inductive Rating where
  | Buy
  | Hold
  | Sell
deriving DecidableEq

/-- The string the source stores for a rating. -/
def ratingStr : Rating → String
  | .Buy => "Buy"
  | .Hold => "Hold"
  | .Sell => "Sell"

/-- A stock record of the fixture store (source type `Stock`). -/
structure Stock where
  id : String
  ticker : String
  company : String
  sector : String
  price : ℚ
  changePercent : ℚ
  volume : ℚ
  marketCap : ℚ
  rating : Rating
  lastUpdated : String
deriving DecidableEq

/-- Bond ratings (the source type union `'AAA' | 'AA' | 'A' | 'BBB' | 'BB'`). -/
inductive BondRating where
  | AAA
  | AA
  | A
  | BBB
  | BB
deriving DecidableEq

/-- A bond record of the fixture store (source type `Bond`). -/
structure Bond where
  id : String
  name : String
  issuer : String
  rating : BondRating
  coupon : ℚ
  maturity : String
  yieldToMaturity : ℚ
  duration : ℚ
  price : ℚ
  currency : String
  nextCall : Option String
  sector : String
  size : ℚ
  lastTraded : String
deriving DecidableEq

/-- An instrument record (source type `Instrument`). -/
structure Instrument where
  id : String
  name : String
  ticker : String
deriving DecidableEq


/-- Fixture stock record `stk-001` (ALNA). -/
def stk001 : Stock :=
  ⟨"stk-001", "ALNA", "Aluna Energy", "Energy",
   mkRat 8412 100, mkRat 184 100, (5230000 : ℚ), (24800000000 : ℚ),
   Rating.Buy, "2026-02-11T14:12:00Z"⟩

/-- Fixture stock record `stk-002` (BLFD). -/
def stk002 : Stock :=
  ⟨"stk-002", "BLFD", "Bluefield Cloud", "Technology",
   mkRat 14275 100, mkRat (-62) 100, (8120000 : ℚ), (91800000000 : ℚ),
   Rating.Hold, "2026-02-11T14:09:00Z"⟩

/-- Fixture stock record `stk-003` (CSTL). -/
def stk003 : Stock :=
  ⟨"stk-003", "CSTL", "Coastal Materials", "Industrials",
   mkRat 5844 100, mkRat 31 100, (1830000 : ℚ), (11200000000 : ℚ),
   Rating.Hold, "2026-02-11T14:05:00Z"⟩

/-- Fixture stock record `stk-004` (DLWN). -/
def stk004 : Stock :=
  ⟨"stk-004", "DLWN", "Dawn Foods", "Consumer Staples",
   mkRat 399 10, mkRat (-112) 100, (2260000 : ℚ), (7600000000 : ℚ),
   Rating.Buy, "2026-02-11T14:08:00Z"⟩

/-- Fixture stock record `stk-005` (ECHO). -/
def stk005 : Stock :=
  ⟨"stk-005", "ECHO", "Echo Mobility", "Consumer Discretionary",
   mkRat 2763 100, mkRat 221 100, (6410000 : ℚ), (9800000000 : ℚ),
   Rating.Buy, "2026-02-11T14:11:00Z"⟩

/-- Fixture stock record `stk-006` (FLXR). -/
def stk006 : Stock :=
  ⟨"stk-006", "FLXR", "Flux Robotics", "Technology",
   mkRat 2124 10, mkRat 305 100, (4320000 : ℚ), (156000000000 : ℚ),
   Rating.Buy, "2026-02-11T14:10:00Z"⟩

/-- Fixture stock record `stk-007` (GNRD). -/
def stk007 : Stock :=
  ⟨"stk-007", "GNRD", "Greenridge Utilities", "Utilities",
   mkRat 6215 100, mkRat (-18) 100, (1960000 : ℚ), (21400000000 : ℚ),
   Rating.Hold, "2026-02-11T14:07:00Z"⟩

/-- Fixture stock record `stk-008` (HLXR). -/
def stk008 : Stock :=
  ⟨"stk-008", "HLXR", "Helix Health", "Healthcare",
   mkRat 943 10, mkRat 102 100, (3890000 : ℚ), (48600000000 : ℚ),
   Rating.Buy, "2026-02-11T14:06:00Z"⟩

/-- Fixture stock record `stk-009` (IONA). -/
def stk009 : Stock :=
  ⟨"stk-009", "IONA", "Iona Renewables", "Energy",
   mkRat 4678 100, mkRat (-234) 100, (7120000 : ℚ), (15200000000 : ℚ),
   Rating.Sell, "2026-02-11T14:09:00Z"⟩

/-- Fixture stock record `stk-010` (JUNO). -/
def stk010 : Stock :=
  ⟨"stk-010", "JUNO", "Juno Logistics", "Industrials",
   mkRat 7388 100, mkRat 54 100, (2740000 : ℚ), (18600000000 : ℚ),
   Rating.Hold, "2026-02-11T14:04:00Z"⟩

/-- Fixture stock record `stk-011` (KOVA). -/
def stk011 : Stock :=
  ⟨"stk-011", "KOVA", "Kova Financial", "Financials",
   mkRat 12915 100, mkRat 16 10, (5270000 : ℚ), (68200000000 : ℚ),
   Rating.Buy, "2026-02-11T14:07:00Z"⟩

/-- Fixture stock record `stk-012` (LUMA). -/
def stk012 : Stock :=
  ⟨"stk-012", "LUMA", "Luma Semiconductors", "Technology",
   mkRat 31102 100, mkRat (-145) 100, (6110000 : ℚ), (234000000000 : ℚ),
   Rating.Hold, "2026-02-11T14:03:00Z"⟩

/-- Fixture stock record `stk-013` (MARN). -/
def stk013 : Stock :=
  ⟨"stk-013", "MARN", "Mariner Apparel", "Consumer Discretionary",
   mkRat 3367 100, mkRat 22 100, (1650000 : ℚ), (5100000000 : ℚ),
   Rating.Hold, "2026-02-11T14:11:00Z"⟩

/-- Fixture stock record `stk-014` (NOVA). -/
def stk014 : Stock :=
  ⟨"stk-014", "NOVA", "Nova MedTech", "Healthcare",
   mkRat 1182 10, mkRat 27 10, (3470000 : ℚ), (72200000000 : ℚ),
   Rating.Buy, "2026-02-11T14:02:00Z"⟩

/-- Fixture stock record `stk-015` (ORBT). -/
def stk015 : Stock :=
  ⟨"stk-015", "ORBT", "Orbit Streaming", "Communication Services",
   mkRat 5196 100, mkRat (-4) 10, (2890000 : ℚ), (19400000000 : ℚ),
   Rating.Hold, "2026-02-11T14:12:00Z"⟩

/-- Fixture stock record `stk-016` (PRSM). -/
def stk016 : Stock :=
  ⟨"stk-016", "PRSM", "Prism Retail", "Consumer Discretionary",
   mkRat 6438 100, mkRat (-18) 10, (4780000 : ℚ), (22100000000 : ℚ),
   Rating.Sell, "2026-02-11T14:06:00Z"⟩

/-- Fixture stock record `stk-017` (QUAY). -/
def stk017 : Stock :=
  ⟨"stk-017", "QUAY", "Quay Hospitality", "Consumer Discretionary",
   mkRat 2275 100, mkRat 114 100, (1320000 : ℚ), (3900000000 : ℚ),
   Rating.Hold, "2026-02-11T14:04:00Z"⟩

/-- Fixture stock record `stk-018` (RIVR). -/
def stk018 : Stock :=
  ⟨"stk-018", "RIVR", "Riverline Shipping", "Industrials",
   mkRat 4122 100, mkRat 8 100, (2030000 : ℚ), (8400000000 : ℚ),
   Rating.Hold, "2026-02-11T14:08:00Z"⟩

/-- Fixture stock record `stk-019` (SOLR). -/
def stk019 : Stock :=
  ⟨"stk-019", "SOLR", "Solara Power", "Utilities",
   mkRat 7654 100, mkRat 136 100, (2190000 : ℚ), (26800000000 : ℚ),
   Rating.Buy, "2026-02-11T14:12:00Z"⟩

/-- Fixture stock record `stk-020` (TRMN). -/
def stk020 : Stock :=
  ⟨"stk-020", "TRMN", "Truman Insurance", "Financials",
   mkRat 9241 100, mkRat (-98) 100, (2410000 : ℚ), (35600000000 : ℚ),
   Rating.Hold, "2026-02-11T14:10:00Z"⟩

/-- Fixture stock record `stk-021` (URSA). -/
def stk021 : Stock :=
  ⟨"stk-021", "URSA", "Ursa Defense", "Industrials",
   mkRat 1589 10, mkRat 248 100, (4180000 : ℚ), (104000000000 : ℚ),
   Rating.Buy, "2026-02-11T14:03:00Z"⟩

/-- Fixture stock record `stk-022` (VTRN). -/
def stk022 : Stock :=
  ⟨"stk-022", "VTRN", "Vitorra Biotech", "Healthcare",
   mkRat 6719 100, mkRat (-22) 100, (2950000 : ℚ), (18900000000 : ℚ),
   Rating.Hold, "2026-02-11T14:05:00Z"⟩

/-- Fixture stock record `stk-023` (WISP). -/
def stk023 : Stock :=
  ⟨"stk-023", "WISP", "Wisp Wireless", "Communication Services",
   mkRat 3904 100, mkRat 9 10, (3770000 : ℚ), (14200000000 : ℚ),
   Rating.Buy, "2026-02-11T14:09:00Z"⟩

/-- Fixture stock record `stk-024` (XENO). -/
def stk024 : Stock :=
  ⟨"stk-024", "XENO", "Xeno Materials", "Materials",
   mkRat 5567 100, mkRat (-74) 100, (2080000 : ℚ), (12600000000 : ℚ),
   Rating.Hold, "2026-02-11T14:01:00Z"⟩

/-- Fixture stock record `stk-025` (YARA). -/
def stk025 : Stock :=
  ⟨"stk-025", "YARA", "Yara AgriTech", "Materials",
   mkRat 4732 100, mkRat 112 100, (1890000 : ℚ), (9800000000 : ℚ),
   Rating.Buy, "2026-02-11T14:06:00Z"⟩

/-- Fixture stock record `stk-026` (ZEND). -/
def stk026 : Stock :=
  ⟨"stk-026", "ZEND", "Zendara Software", "Technology",
   mkRat 18856 100, mkRat 44 100, (5210000 : ℚ), (112000000000 : ℚ),
   Rating.Buy, "2026-02-11T14:12:00Z"⟩

/-- Fixture stock record `stk-027` (AURM). -/
def stk027 : Stock :=
  ⟨"stk-027", "AURM", "Auram Luxury", "Consumer Discretionary",
   mkRat 9621 100, mkRat (-216) 100, (1580000 : ℚ), (27400000000 : ℚ),
   Rating.Sell, "2026-02-11T14:02:00Z"⟩

/-- Fixture stock record `stk-028` (BLOM). -/
def stk028 : Stock :=
  ⟨"stk-028", "BLOM", "Bloom Home", "Consumer Discretionary",
   mkRat 4473 100, mkRat 67 100, (2210000 : ℚ), (9800000000 : ℚ),
   Rating.Hold, "2026-02-11T14:07:00Z"⟩

/-- Fixture stock record `stk-029` (CLAR). -/
def stk029 : Stock :=
  ⟨"stk-029", "CLAR", "Clarity Payments", "Financials",
   mkRat 11228 100, mkRat 124 100, (3980000 : ℚ), (52100000000 : ℚ),
   Rating.Buy, "2026-02-11T14:08:00Z"⟩

/-- Fixture stock record `stk-030` (DRFT). -/
def stk030 : Stock :=
  ⟨"stk-030", "DRFT", "Drift Travel", "Consumer Discretionary",
   mkRat 2408 100, mkRat (-36) 100, (1670000 : ℚ), (6200000000 : ℚ),
   Rating.Hold, "2026-02-11T14:04:00Z"⟩

/-- The immutable 30-record stock fixture store, in source order. -/
def stocks : List Stock :=
  [stk001, stk002, stk003, stk004, stk005, stk006, stk007, stk008, stk009, stk010, stk011, stk012, stk013, stk014, stk015, stk016, stk017, stk018, stk019, stk020, stk021, stk022, stk023, stk024, stk025, stk026, stk027, stk028, stk029, stk030]
/-- Fixture bond record `bond-001`. -/
def bnd001 : Bond :=
  ⟨"bond-001", "Aurora Transit 2036", "Aurora Transit Authority", BondRating.AA,
   mkRat 375 100, "2036-09-15", mkRat 418 100, mkRat 84 10,
   mkRat 9862 100, "USD", some "2031-09-15", "Municipal", (1200000000 : ℚ), "2026-02-11T13:58:00Z"⟩

/-- Fixture bond record `bond-002`. -/
def bnd002 : Bond :=
  ⟨"bond-002", "Northbridge Health 2031", "Northbridge Health Group", BondRating.BBB,
   mkRat 525 100, "2031-03-01", mkRat 548 100, mkRat 49 10,
   mkRat 10105 100, "USD", none, "Healthcare", (850000000 : ℚ), "2026-02-11T13:52:00Z"⟩

/-- Fixture bond record `bond-003`. -/
def bnd003 : Bond :=
  ⟨"bond-003", "Solara Grid 2040", "Solara Power Holdings", BondRating.A,
   mkRat 44 10, "2040-11-30", mkRat 486 100, mkRat 106 10,
   mkRat 964 10, "USD", some "2035-11-30", "Utilities", (1500000000 : ℚ), "2026-02-11T14:02:00Z"⟩

/-- Fixture bond record `bond-004`. -/
def bnd004 : Bond :=
  ⟨"bond-004", "Meridian Ports 2029", "Meridian Ports & Logistics", BondRating.BB,
   mkRat 61 10, "2029-07-15", mkRat 645 100, mkRat 31 10,
   mkRat 9924 100, "USD", none, "Industrials", (420000000 : ℚ), "2026-02-11T13:48:00Z"⟩

/-- Fixture bond record `bond-005`. -/
def bnd005 : Bond :=
  ⟨"bond-005", "Lumen Fiber 2038", "Lumen Fiber Networks", BondRating.A,
   mkRat 495 100, "2038-05-01", mkRat 512 100, mkRat 93 10,
   mkRat 9788 100, "EUR", some "2034-05-01", "Communications", (960000000 : ℚ), "2026-02-11T13:55:00Z"⟩

/-- The immutable 5-record bond fixture store, in source order. -/
def bonds : List Bond :=
  [bnd001, bnd002, bnd003, bnd004, bnd005]
/-- Fixture instrument list for asset class `equities`. -/
def equitiesInstruments : List Instrument :=
  [⟨"inst-eq-001", "Global Equity Fund", "GLEQ"⟩, ⟨"inst-eq-002", "US Large Cap Growth", "USLCG"⟩, ⟨"inst-eq-003", "Emerging Markets Fund", "EMMK"⟩, ⟨"inst-eq-004", "Tech Innovation ETF", "TCHIN"⟩, ⟨"inst-eq-005", "Dividend Aristocrats", "DVAR"⟩]

/-- Fixture instrument list for asset class `fixed-income`. -/
def fixedIncomeInstruments : List Instrument :=
  [⟨"inst-fi-001", "Global Aggregate Bond", "GLAG"⟩, ⟨"inst-fi-002", "US Treasury Fund", "USTF"⟩, ⟨"inst-fi-003", "Investment Grade Corp", "IGCF"⟩, ⟨"inst-fi-004", "High Yield Bond ETF", "HYLD"⟩, ⟨"inst-fi-005", "Municipal Bond Fund", "MUBF"⟩]

/-- Fixture instrument list for asset class `alternatives`. -/
def alternativesInstruments : List Instrument :=
  [⟨"inst-alt-001", "Private Equity Fund", "PEFD"⟩, ⟨"inst-alt-002", "Real Estate Trust", "RRET"⟩, ⟨"inst-alt-003", "Commodities Basket", "CMBT"⟩, ⟨"inst-alt-004", "Hedge Fund Strategies", "HDGE"⟩, ⟨"inst-alt-005", "Infrastructure Fund", "INFR"⟩]

/-- Fixture instrument list for asset class `multi-asset`. -/
def multiAssetInstruments : List Instrument :=
  [⟨"inst-ma-001", "Balanced Growth Fund", "BALG"⟩, ⟨"inst-ma-002", "Target Date 2050", "TD50"⟩, ⟨"inst-ma-003", "Risk Parity Fund", "RSKP"⟩, ⟨"inst-ma-004", "Global Allocation", "GLAL"⟩, ⟨"inst-ma-005", "Dynamic Income", "DINC"⟩]


/-- A stock value whose change-percent is exactly zero. The fixture store
contains no such record, so the zero boundary of the change filter is
witnessed on this extra value. -/
def zeroStock : Stock :=
  ⟨"stk-zzz", "ZERO", "Zero Motion", "Testing", mkRat 10 1, 0, 1000, 1000000,
   Rating.Hold, "2026-02-11T00:00:00Z"⟩

/-- Helper for `firstDedup`: keep each element not seen before, in order,
remembering what has been kept. This is exactly how a JavaScript `Set`
built by insertion iterates: first occurrences, in insertion order. -/
def firstDedupAux (seen : List String) : List String → List String
  | [] => []
  | x :: xs => if x ∈ seen then firstDedupAux seen xs else x :: firstDedupAux (x :: seen) xs

/-- First-occurrence deduplication, the meaning of
`Array.from(new Set(l))` on a list of strings. -/
def firstDedup (l : List String) : List String := firstDedupAux [] l

/-- The module-level `sectors` constant of the handler file:
`Array.from(new Set(stocks.map(stock => stock.sector)))`. -/
def sectors : List String := firstDedup (stocks.map (fun st => st.sector))

/-- The query parameters of GET /api/stocks as extracted from the URL:
each is `null` (absent) or the raw string value. -/
structure StockQuery where
  search : Option String
  sector : Option String
  rating : Option String
  change : Option String
  minPrice : Option String
  maxPrice : Option String
  minCap : Option String
  maxCap : Option String
deriving DecidableEq

/-- Normalisation of the search parameter done at extraction time:
`url.searchParams.get('search')?.toLowerCase() ?? ''`. -/
def normSearch : Option String → String
  | none => ""
  | some s => strLower s

def qSearch (q : StockQuery) : String := normSearch q.search

/-- Sector parameter with its sentinel: `get('sector') ?? 'All'`. -/
def qSector (q : StockQuery) : String := q.sector.getD "All"

/-- Rating parameter with its sentinel: `get('rating') ?? 'All'`. -/
def qRating (q : StockQuery) : String := q.rating.getD "All"

/-- Change parameter with its sentinel: `get('change') ?? 'any'`. -/
def qChange (q : StockQuery) : String := q.change.getD "any"

/-- The guard `bound !== undefined && x < bound` of the handler, with
JavaScript comparison semantics (false when the bound parsed to NaN). -/
def boundLt (x : ℚ) : Option JSNum → Bool
  | none => false
  | some b => JSNum.jlt (JSNum.num x) b

/-- The guard `bound !== undefined && x > bound` of the handler. -/
def boundGt (x : ℚ) : Option JSNum → Bool
  | none => false
  | some b => JSNum.jgt (JSNum.num x) b

/-- The filter callback of the /api/stocks handler: the source's chain of
early `return false` guards, one `if` per guard, in source order. -/
def stockMatches (search sector rating change : String)
    (minPrice maxPrice minCap maxCap : Option JSNum) (st : Stock) : Bool :=
  if !(search == "") && !(hasSub search.data (lowerChars (st.ticker ++ " " ++ st.company).data)) then
    false
  else if !(sector == "All") && !(st.sector == sector) then false
  else if !(rating == "All") && !(ratingStr st.rating == rating) then false
  else if change == "positive" && decide (st.changePercent ≤ 0) then false
  else if change == "negative" && decide (0 ≤ st.changePercent) then false
  else if boundLt st.price minPrice then false
  else if boundGt st.price maxPrice then false
  else if boundLt st.marketCap minCap then false
  else if boundGt st.marketCap maxCap then false
  else true

/-- The `meta` object of the /api/stocks response. -/
structure StocksMeta where
  total : Nat
  sectors : List String
deriving DecidableEq

/-- The /api/stocks response body. -/
structure StocksResult where
  data : List Stock
  meta : StocksMeta
deriving DecidableEq

/-- The GET /api/stocks handler: parameter extraction, the linear filter
scan over the store, and the response with store-wide sector metadata. -/
def listStocks (q : StockQuery) : StocksResult :=
  let filtered := stocks.filter (stockMatches (qSearch q) (qSector q) (qRating q) (qChange q)
    (parseNumber q.minPrice) (parseNumber q.maxPrice) (parseNumber q.minCap) (parseNumber q.maxCap))
  ⟨filtered, ⟨filtered.length, sectors⟩⟩

/-- The projection of a bond used by the /api/bonds list view. -/
structure BondSummary where
  id : String
  name : String
  issuer : String
  rating : BondRating
deriving DecidableEq

/-- The `meta` object of the /api/bonds response. -/
structure BondsMeta where
  total : Nat
deriving DecidableEq

/-- The /api/bonds response body. -/
structure BondsResult where
  data : List BondSummary
  meta : BondsMeta
deriving DecidableEq

/-- The GET /api/bonds handler: every bond projected to
{id, name, issuer, rating}, in store order, plus the count. -/
def listBondSummaries : BondsResult :=
  let options := bonds.map (fun b => BondSummary.mk b.id b.name b.issuer b.rating)
  ⟨options, ⟨options.length⟩⟩

/-- The one failure kind of the core: the 404 of the bond-detail route. -/
inductive ApiError where
  | notFound
deriving DecidableEq

/-- The GET /api/bonds/:id handler: `bonds.find(item => item.id === id)`,
404 when the find comes back empty. -/
def getBondDetail (i : String) : Except ApiError Bond :=
  match bonds.find? (fun b => b.id == i) with
  | some b => Except.ok b
  | none => Except.error ApiError.notFound

/-- The own properties of the `instrumentsByAssetClass` object literal:
the four literal keys map to their fixed lists. -/
def instrumentsOwn (key : String) : Option (List Instrument) :=
  if key = "equities" then some equitiesInstruments
  else if key = "fixed-income" then some fixedIncomeInstruments
  else if key = "alternatives" then some alternativesInstruments
  else if key = "multi-asset" then some multiAssetInstruments
  else none

/-- Property names a plain object literal inherits from
`Object.prototype`; every one of them holds a truthy value (a built-in
function, or the `Object.prototype` object itself for `__proto__`). -/
def objectProtoKeys : List String :=
  ["constructor", "hasOwnProperty", "isPrototypeOf", "propertyIsEnumerable",
   "toLocaleString", "toString", "valueOf", "__proto__",
   "__defineGetter__", "__defineSetter__", "__lookupGetter__", "__lookupSetter__"]

/-- What JavaScript bracket access `instrumentsByAssetClass[key]` can
produce: an own fixture list, a truthy member inherited from
`Object.prototype`, or `undefined`. -/
inductive PropValue where
  | lists (l : List Instrument)
  | protoMember
  | undef
deriving DecidableEq

/-- JavaScript bracket access on the `instrumentsByAssetClass` object
literal: own properties first, then the `Object.prototype` chain, and
`undefined` only when neither supplies the key. -/
def instrumentsByAssetClass (key : String) : PropValue :=
  match instrumentsOwn key with
  | some l => PropValue.lists l
  | none => if key ∈ objectProtoKeys then PropValue.protoMember else PropValue.undef

/-- The /api/services/instruments response body: either `{ data: [...] }`
carrying a proper instrument array, or the JSON serialisation of a
non-array value reached through the prototype chain (for inherited
`Object.prototype` functions, `JSON.stringify` drops the `data` key
entirely; for `__proto__` it serialises as an empty object — in neither
case an instrument list). -/
inductive InstrumentsResponse where
  | data (l : List Instrument)
  | nonList
deriving DecidableEq

/-- The GET /api/services/instruments handler:
`if (!assetClass || !instrumentsByAssetClass[assetClass]) return { data: [] }`,
otherwise `{ data: instrumentsByAssetClass[assetClass] }`. An absent
parameter and the empty string are falsy, as is the `undefined` produced
by a key that is neither an own property nor inherited; an own key
yields its list; a truthy inherited `Object.prototype` member defeats
the guard and produces a response that is not an instrument list. -/
def listInstruments (assetClass : Option String) : InstrumentsResponse :=
  match assetClass with
  | none => InstrumentsResponse.data []
  | some k =>
    if k = "" then InstrumentsResponse.data []
    else match instrumentsByAssetClass k with
      | PropValue.undef => InstrumentsResponse.data []
      | PropValue.lists l => InstrumentsResponse.data l
      | PropValue.protoMember => InstrumentsResponse.nonList

/-- Search guard of the filter callback in isolation: accept when the
(already lowercased) search is empty or occurs in the lowercased
`ticker company` haystack. -/
def searchOk (search : String) (st : Stock) : Bool :=
  search == "" || hasSub search.data (lowerChars (st.ticker ++ " " ++ st.company).data)

/-- Sector guard of the filter callback in isolation. -/
def sectorOk (sector : String) (st : Stock) : Bool :=
  sector == "All" || st.sector == sector

/-- Rating guard of the filter callback in isolation. -/
def ratingOk (rating : String) (st : Stock) : Bool :=
  rating == "All" || ratingStr st.rating == rating

/-- Change-direction guard of the filter callback in isolation. -/
def changeOk (change : String) (st : Stock) : Bool :=
  !(change == "positive" && decide (st.changePercent ≤ 0)) &&
  !(change == "negative" && decide (0 ≤ st.changePercent))

/-- Price-bounds guard of the filter callback in isolation. -/
def priceOk (minP maxP : Option JSNum) (st : Stock) : Bool :=
  !(boundLt st.price minP) && !(boundGt st.price maxP)

/-- Market-cap-bounds guard of the filter callback in isolation. -/
def capOk (minC maxC : Option JSNum) (st : Stock) : Bool :=
  !(boundLt st.marketCap minC) && !(boundGt st.marketCap maxC)

/-- Search predicate as the specification words it, independent of the
handler's normalisation: the supplied search string, compared
case-insensitively, occurs in the concatenation of ticker and company
name joined by a single space; an empty or absent search accepts all. -/
def searchSpec (q : Option String) (st : Stock) : Bool :=
  match q with
  | none => true
  | some s =>
    s == "" || hasSub (lowerChars s.data) (lowerChars (st.ticker ++ " " ++ st.company).data)


/-! Helper lemmas shared by the claim proofs. -/

theorem mem_firstDedupAux (a : String) (l : List String) : ∀ seen : List String,
    a ∈ firstDedupAux seen l ↔ a ∈ l ∧ a ∉ seen := by
  induction l with
  | nil => intro seen; simp [firstDedupAux]
  | cons x xs ih =>
    intro seen
    by_cases hx : x ∈ seen
    · simp only [firstDedupAux]
      rw [if_pos hx, ih]
      constructor
      · rintro ⟨hm, hs⟩
        exact ⟨List.mem_cons_of_mem _ hm, hs⟩
      · rintro ⟨hm, hs⟩
        rcases List.mem_cons.mp hm with rfl | hm2
        · exact absurd hx hs
        · exact ⟨hm2, hs⟩
    · simp only [firstDedupAux]
      rw [if_neg hx]
      simp only [List.mem_cons, ih (x :: seen)]
      constructor
      · rintro (rfl | ⟨hm, hs⟩)
        · exact ⟨Or.inl rfl, hx⟩
        · exact ⟨Or.inr hm, fun h => hs (Or.inr h)⟩
      · rintro ⟨rfl | hm, hs⟩
        · exact Or.inl rfl
        · by_cases hax : a = x
          · exact Or.inl hax
          · exact Or.inr ⟨hm, fun h => h.elim hax hs⟩

theorem nodup_firstDedupAux (l : List String) : ∀ seen : List String,
    (firstDedupAux seen l).Nodup := by
  induction l with
  | nil => intro seen; simp [firstDedupAux]
  | cons x xs ih =>
    intro seen
    by_cases hx : x ∈ seen
    · simp only [firstDedupAux]
      rw [if_pos hx]
      exact ih seen
    · simp only [firstDedupAux]
      rw [if_neg hx]
      refine List.nodup_cons.mpr ⟨?_, ih (x :: seen)⟩
      intro hmem
      exact ((mem_firstDedupAux x xs (x :: seen)).mp hmem).2 (List.mem_cons_self x seen)

theorem mem_sectors (x : String) : x ∈ sectors ↔ ∃ st, st ∈ stocks ∧ st.sector = x := by
  unfold sectors firstDedup
  rw [mem_firstDedupAux]
  simp [List.mem_map]

/-- The filter callback is the conjunction of its six guards. -/
theorem stockMatches_eq_conj (se sec ra ch : String) (mp xp mc xc : Option JSNum) (st : Stock) :
    stockMatches se sec ra ch mp xp mc xc st =
      (searchOk se st && sectorOk sec st && ratingOk ra st && changeOk ch st &&
        priceOk mp xp st && capOk mc xc st) := by
  unfold stockMatches searchOk sectorOk ratingOk changeOk priceOk capOk
  generalize (se == "") = A
  generalize hasSub se.data (lowerChars (st.ticker ++ " " ++ st.company).data) = B
  generalize (sec == "All") = C
  generalize (st.sector == sec) = D
  generalize (ra == "All") = E
  generalize (ratingStr st.rating == ra) = F
  generalize (ch == "positive") = G
  generalize decide (st.changePercent ≤ 0) = H
  generalize (ch == "negative") = I
  generalize decide (0 ≤ st.changePercent) = J
  generalize boundLt st.price mp = K
  generalize boundGt st.price xp = L
  generalize boundLt st.marketCap mc = M
  generalize boundGt st.marketCap xc = N
  revert A B C D E F G H I J K L M N
  decide

/-- Membership in the /api/stocks response data is membership in the
store plus the filter callback. -/
theorem mem_listStocks (q : StockQuery) (st : Stock) :
    st ∈ (listStocks q).data ↔
      st ∈ stocks ∧ stockMatches (qSearch q) (qSector q) (qRating q) (qChange q)
        (parseNumber q.minPrice) (parseNumber q.maxPrice) (parseNumber q.minCap)
        (parseNumber q.maxCap) st = true := by
  simp only [listStocks]
  exact List.mem_filter

/-- Two queries whose processed parameters drive the filter callback
identically produce identical responses. -/
theorem listStocks_congrMatch (q q2 : StockQuery)
    (h : ∀ st, stockMatches (qSearch q) (qSector q) (qRating q) (qChange q)
        (parseNumber q.minPrice) (parseNumber q.maxPrice) (parseNumber q.minCap)
        (parseNumber q.maxCap) st =
      stockMatches (qSearch q2) (qSector q2) (qRating q2) (qChange q2)
        (parseNumber q2.minPrice) (parseNumber q2.maxPrice) (parseNumber q2.minCap)
        (parseNumber q2.maxCap) st) :
    listStocks q = listStocks q2 := by
  simp only [listStocks]
  rw [List.filter_congr (fun st _ => h st)]

theorem boundLt_none (x : ℚ) : boundLt x none = false := rfl

theorem boundLt_nan (x : ℚ) : boundLt x (some JSNum.nan) = false := rfl

theorem boundGt_none (x : ℚ) : boundGt x none = false := rfl

theorem boundGt_nan (x : ℚ) : boundGt x (some JSNum.nan) = false := rfl

/-- A min-price bound that never fires is the same as no bound. -/
theorem stockMatches_minPrice_skip (se sec ra ch : String) (mp : Option JSNum)
    (hmp : ∀ x, boundLt x mp = false) (xp mc xc : Option JSNum) (st : Stock) :
    stockMatches se sec ra ch mp xp mc xc st = stockMatches se sec ra ch none xp mc xc st := by
  unfold stockMatches
  rw [hmp st.price, boundLt_none]

/-- A max-price bound that never fires is the same as no bound. -/
theorem stockMatches_maxPrice_skip (se sec ra ch : String) (mp xp : Option JSNum)
    (hxp : ∀ x, boundGt x xp = false) (mc xc : Option JSNum) (st : Stock) :
    stockMatches se sec ra ch mp xp mc xc st = stockMatches se sec ra ch mp none mc xc st := by
  unfold stockMatches
  rw [hxp st.price, boundGt_none]

/-- A min-cap bound that never fires is the same as no bound. -/
theorem stockMatches_minCap_skip (se sec ra ch : String) (mp xp mc : Option JSNum)
    (hmc : ∀ x, boundLt x mc = false) (xc : Option JSNum) (st : Stock) :
    stockMatches se sec ra ch mp xp mc xc st = stockMatches se sec ra ch mp xp none xc st := by
  unfold stockMatches
  rw [hmc st.marketCap, boundLt_none]

/-- A max-cap bound that never fires is the same as no bound. -/
theorem stockMatches_maxCap_skip (se sec ra ch : String) (mp xp mc xc : Option JSNum)
    (hxc : ∀ x, boundGt x xc = false) (st : Stock) :
    stockMatches se sec ra ch mp xp mc xc st = stockMatches se sec ra ch mp xp mc none st := by
  unfold stockMatches
  rw [hxc st.marketCap, boundGt_none]

/-- Lowercasing preserves emptiness of a string. -/
theorem strLower_beq_empty (s : String) : (strLower s == "") = (s == "") := by
  obtain ⟨l⟩ := s
  cases l with
  | nil => rfl
  | cons c cs => rfl

/-- Membership in the /api/stocks response data, decomposed into the six
independent guards (`parseNumber` applied to the four bound strings). -/
theorem mem_listStocks_conj (q : StockQuery) (st : Stock) :
    st ∈ (listStocks q).data ↔
      st ∈ stocks ∧ searchOk (qSearch q) st = true ∧ sectorOk (qSector q) st = true ∧
      ratingOk (qRating q) st = true ∧ changeOk (qChange q) st = true ∧
      priceOk (parseNumber q.minPrice) (parseNumber q.maxPrice) st = true ∧
      capOk (parseNumber q.minCap) (parseNumber q.maxCap) st = true := by
  rw [mem_listStocks, stockMatches_eq_conj]
  simp [Bool.and_eq_true, and_assoc]

/-! The claim theorems. -/

/-- C1: for every combination of filter parameters, /api/stocks returns
exactly those store records that satisfy every active guard (conjunction
of search, sector, rating, change direction and the four numeric
bounds), as a sublist of the store, hence in original insertion order, a
subset of the full stock set, and omitting no record that satisfies all
active guards. -/
theorem listStocks_filter_conjunction (q : StockQuery) :
    (listStocks q).data.Sublist stocks ∧
    ∀ st : Stock, st ∈ (listStocks q).data ↔
      st ∈ stocks ∧ searchOk (qSearch q) st = true ∧ sectorOk (qSector q) st = true ∧
      ratingOk (qRating q) st = true ∧ changeOk (qChange q) st = true ∧
      priceOk (parseNumber q.minPrice) (parseNumber q.maxPrice) st = true ∧
      capOk (parseNumber q.minCap) (parseNumber q.maxCap) st = true := by
  constructor
  · simp only [listStocks]
    exact List.filter_sublist stocks
  · exact fun st => mem_listStocks_conj q st

/-- C2: the handler's search guard (which lowercases the query once and
tests `includes` on the lowercased `ticker company` haystack) coincides
with the spec's predicate — case-insensitive substring of ticker and
company joined by one space, empty or absent accepting all — and the
mixed-case search "zEnD" selects exactly the ZEND (Zendara Software)
record. -/
theorem search_case_insensitive :
    (∀ (qs : Option String) (st : Stock), searchOk (normSearch qs) st = searchSpec qs st) ∧
    (listStocks ⟨some "zEnD", none, none, none, none, none, none, none⟩).data = [stk026] ∧
    stk026.ticker = "ZEND" ∧ stk026.company = "Zendara Software" := by
  refine ⟨?_, by decide, rfl, rfl⟩
  intro qs st
  cases qs with
  | none => rfl
  | some s =>
    simp only [normSearch, searchOk, searchSpec]
    rw [strLower_beq_empty]
    rfl

/-- C3: change="positive" keeps exactly the records with change-percent
strictly above 0, change="negative" exactly those strictly below 0,
and a record at exactly 0 is excluded by both but included (subject to
the other guards) by change="any", which behaves identically to an
omitted change parameter. -/
theorem change_direction_boundary (st : Stock) :
    (changeOk "positive" st = true ↔ 0 < st.changePercent) ∧
    (changeOk "negative" st = true ↔ st.changePercent < 0) ∧
    changeOk "any" st = true ∧
    (st.changePercent = 0 →
      ∀ a b c e f g k : Option String,
        st ∉ (listStocks ⟨a, b, c, some "positive", e, f, g, k⟩).data ∧
        st ∉ (listStocks ⟨a, b, c, some "negative", e, f, g, k⟩).data ∧
        listStocks ⟨a, b, c, some "any", e, f, g, k⟩ = listStocks ⟨a, b, c, none, e, f, g, k⟩ ∧
        (st ∈ (listStocks ⟨a, b, c, some "any", e, f, g, k⟩).data ↔
          st ∈ stocks ∧ searchOk (normSearch a) st = true ∧ sectorOk (b.getD "All") st = true ∧
          ratingOk (c.getD "All") st = true ∧
          priceOk (parseNumber e) (parseNumber f) st = true ∧
          capOk (parseNumber g) (parseNumber k) st = true)) := by
  refine ⟨by simp [changeOk], by simp [changeOk], rfl, ?_⟩
  intro h0 a b c e f g k
  have hpos : changeOk "positive" st = false := by simp [changeOk, h0]
  have hneg : changeOk "negative" st = false := by simp [changeOk, h0]
  refine ⟨?_, ?_, rfl, ?_⟩
  · intro hmem
    have h := (mem_listStocks_conj ⟨a, b, c, some "positive", e, f, g, k⟩ st).mp hmem
    rw [show qChange ⟨a, b, c, some "positive", e, f, g, k⟩ = "positive" from rfl] at h
    exact absurd h.2.2.2.2.1 (by rw [hpos]; exact Bool.false_ne_true)
  · intro hmem
    have h := (mem_listStocks_conj ⟨a, b, c, some "negative", e, f, g, k⟩ st).mp hmem
    rw [show qChange ⟨a, b, c, some "negative", e, f, g, k⟩ = "negative" from rfl] at h
    exact absurd h.2.2.2.2.1 (by rw [hneg]; exact Bool.false_ne_true)
  · rw [mem_listStocks_conj]
    simp only [qSearch, qSector, qRating, qChange, Option.getD]
    simp [changeOk]

/-- C3 witness: the zero-change stock value is rejected by both
directional filters on the otherwise unfiltered query. -/
theorem change_direction_boundary_witness :
    zeroStock.changePercent = 0 ∧
    zeroStock ∉ (listStocks ⟨none, none, none, some "positive", none, none, none, none⟩).data ∧
    zeroStock ∉ (listStocks ⟨none, none, none, some "negative", none, none, none, none⟩).data := by
  have h := (change_direction_boundary zeroStock).2.2.2 rfl none none none none none none none
  exact ⟨rfl, h.1, h.2.1⟩

/-- C4: the numeric bounds are inclusive — a record passes a supplied
finite minimum bound exactly when its value is ≥ the bound, a maximum
bound exactly when ≤, for price and market cap alike; equality passes. -/
theorem bounds_inclusive (st : Stock) (v : ℚ) :
    (priceOk (some (JSNum.num v)) none st = true ↔ v ≤ st.price) ∧
    (priceOk none (some (JSNum.num v)) st = true ↔ st.price ≤ v) ∧
    (capOk (some (JSNum.num v)) none st = true ↔ v ≤ st.marketCap) ∧
    (capOk none (some (JSNum.num v)) st = true ↔ st.marketCap ≤ v) ∧
    (v = st.price → priceOk (some (JSNum.num v)) (some (JSNum.num v)) st = true) := by
  refine ⟨?_, ?_, ?_, ?_, ?_⟩ <;>
    simp [priceOk, capOk, boundLt, boundGt, JSNum.jlt, JSNum.jgt, not_lt]
  intro h
  simp [h]

/-- C4 witness: a record whose price equals both supplied bounds passes. -/
theorem bounds_inclusive_witness :
    priceOk (some (JSNum.num (mkRat 8412 100))) (some (JSNum.num (mkRat 8412 100))) stk001
      = true :=
  (bounds_inclusive stk001 (mkRat 8412 100)).2.2.2.2 rfl

/-- C5: a bound string that JavaScript `Number` coercion turns into NaN,
or that is blank, leaves the /api/stocks result exactly as if that bound
parameter were absent, for each of the four bounds, and never errors. -/
theorem malformed_bounds_ignored (a b c d e f g : Option String) (s : String)
    (h : jsNumber s = JSNum.nan ∨ trimChars s.data = []) :
    listStocks ⟨a, b, c, d, some s, e, f, g⟩ = listStocks ⟨a, b, c, d, none, e, f, g⟩ ∧
    listStocks ⟨a, b, c, d, e, some s, f, g⟩ = listStocks ⟨a, b, c, d, e, none, f, g⟩ ∧
    listStocks ⟨a, b, c, d, e, f, some s, g⟩ = listStocks ⟨a, b, c, d, e, f, none, g⟩ ∧
    listStocks ⟨a, b, c, d, e, f, g, some s⟩ = listStocks ⟨a, b, c, d, e, f, g, none⟩ := by
  have hnb : parseNumber (some s) = none ∨ parseNumber (some s) = some JSNum.nan := by
    rcases h with h | h
    · by_cases he : (trimChars s.data).isEmpty
      · left
        simp [parseNumber, he]
      · right
        simp [parseNumber, he, h]
    · left
      simp [parseNumber, h]
  have hLt : ∀ x : ℚ, boundLt x (parseNumber (some s)) = false := by
    intro x
    rcases hnb with hp | hp <;> rw [hp] <;> rfl
  have hGt : ∀ x : ℚ, boundGt x (parseNumber (some s)) = false := by
    intro x
    rcases hnb with hp | hp <;> rw [hp] <;> rfl
  refine ⟨?_, ?_, ?_, ?_⟩
  · apply listStocks_congrMatch
    intro st
    exact stockMatches_minPrice_skip _ _ _ _ _ hLt _ _ _ _
  · apply listStocks_congrMatch
    intro st
    exact stockMatches_maxPrice_skip _ _ _ _ _ _ hGt _ _ _
  · apply listStocks_congrMatch
    intro st
    exact stockMatches_minCap_skip _ _ _ _ _ _ _ hLt _ _
  · apply listStocks_congrMatch
    intro st
    exact stockMatches_maxCap_skip _ _ _ _ _ _ _ _ hGt _

/-- C5 witness: the malformed minimum-price bound "not-a-number" changes
nothing against the otherwise unfiltered query. -/
theorem malformed_bounds_ignored_witness :
    jsNumber "not-a-number" = JSNum.nan ∧
    listStocks ⟨none, none, none, none, some "not-a-number", none, none, none⟩ =
      listStocks ⟨none, none, none, none, none, none, none, none⟩ :=
  ⟨by decide,
   (malformed_bounds_ignored none none none none none none none "not-a-number"
     (Or.inl (by decide))).1⟩

/-- C6: the sectors metadata of every /api/stocks response is the distinct
sector set of the entire unfiltered store — independent of the active
filters — without duplicates, and the reported total is the length of
the filtered data. -/
theorem sectors_meta_store_wide (q : StockQuery) :
    (∀ x : String, x ∈ (listStocks q).meta.sectors ↔ ∃ st, st ∈ stocks ∧ st.sector = x) ∧
    (listStocks q).meta.sectors.Nodup ∧
    (listStocks q).meta.total = (listStocks q).data.length ∧
    (listStocks q).meta.sectors = sectors :=
  ⟨fun x => mem_sectors x,
   by show sectors.Nodup; unfold sectors firstDedup; exact nodup_firstDedupAux _ [],
   rfl, rfl⟩

/-- C7: bond-detail lookup returns the stored bond whose id equals the
requested id exactly when one exists, fails with NotFound exactly when
none does, NotFound is the only error value of the core, and the id
"does-not-exist" yields NotFound. -/
theorem bond_detail_not_found :
    (∀ (i : String) (bd : Bond), getBondDetail i = Except.ok bd → bd ∈ bonds ∧ bd.id = i) ∧
    (∀ i : String, getBondDetail i = Except.error ApiError.notFound ↔
      ∀ bd ∈ bonds, bd.id ≠ i) ∧
    (∀ i : String, (∃ bd ∈ bonds, bd.id = i) →
      ∃ bd, getBondDetail i = Except.ok bd ∧ bd ∈ bonds ∧ bd.id = i) ∧
    (∀ er : ApiError, er = ApiError.notFound) ∧
    getBondDetail "does-not-exist" = Except.error ApiError.notFound := by
  refine ⟨?_, ?_, ?_, fun er => by cases er; rfl, rfl⟩
  · intro i bd h
    unfold getBondDetail at h
    cases hf : bonds.find? (fun b2 => b2.id == i) with
    | none => rw [hf] at h; simp at h
    | some b2 =>
      rw [hf] at h
      simp only [Except.ok.injEq] at h
      subst h
      have hbeq := List.find?_some hf
      simp only [beq_iff_eq] at hbeq
      exact ⟨List.mem_of_find?_eq_some hf, hbeq⟩
  · intro i
    unfold getBondDetail
    cases hf : bonds.find? (fun b2 => b2.id == i) with
    | none =>
      refine iff_of_true rfl ?_
      intro bd hbd heq
      exact absurd (by simp [heq] : (bd.id == i) = true) (List.find?_eq_none.mp hf bd hbd)
    | some b2 =>
      refine iff_of_false (by simp) ?_
      intro hall
      have hbeq := List.find?_some hf
      simp only [beq_iff_eq] at hbeq
      exact hall b2 (List.mem_of_find?_eq_some hf) hbeq
  · intro i hex
    rcases hex with ⟨bd, hbd, hid⟩
    cases hf : bonds.find? (fun b2 => b2.id == i) with
    | none =>
      exact absurd (by simp [hid] : (bd.id == i) = true) (List.find?_eq_none.mp hf bd hbd)
    | some b2 =>
      have hbeq := List.find?_some hf
      simp only [beq_iff_eq] at hbeq
      refine ⟨b2, ?_, List.mem_of_find?_eq_some hf, hbeq⟩
      unfold getBondDetail
      rw [hf]

/-- C7 witness: the lookup for "bond-003" returns a stored bond with that
exact id. -/
theorem bond_detail_not_found_witness : bnd003 ∈ bonds ∧ bnd003.id = "bond-003" :=
  bond_detail_not_found.1 "bond-003" bnd003 rfl

/-- C8 counterexample: "toString" is not one of the four recognised
asset-class keys, yet the handler does not return the empty instrument
list for it — bracket access finds the truthy inherited
`Object.prototype.toString`, the guard does not fire, and the response
body carries that function instead of an instrument array. -/
theorem instruments_proto_key_counterexample :
    "toString" ∉ ["equities", "fixed-income", "alternatives", "multi-asset"] ∧
    listInstruments (some "toString") ≠ InstrumentsResponse.data [] :=
  ⟨by decide, by decide⟩

/-- C8 (amended): each of the four recognised asset-class keys yields its
fixed 5-instrument list (equities containing inst-eq-003, Emerging
Markets Fund, EMMK); an absent parameter, the empty string, and every
unrecognised key that is *not* a property name inherited from
`Object.prototype` yield the empty list and never an error; a key naming
an inherited `Object.prototype` member slips past the guard and produces
a response that is not an instrument list. -/
theorem instruments_unknown_empty :
    listInstruments (some "equities") = InstrumentsResponse.data equitiesInstruments ∧
    listInstruments (some "fixed-income") = InstrumentsResponse.data fixedIncomeInstruments ∧
    listInstruments (some "alternatives") = InstrumentsResponse.data alternativesInstruments ∧
    listInstruments (some "multi-asset") = InstrumentsResponse.data multiAssetInstruments ∧
    equitiesInstruments.length = 5 ∧ fixedIncomeInstruments.length = 5 ∧
    alternativesInstruments.length = 5 ∧ multiAssetInstruments.length = 5 ∧
    Instrument.mk "inst-eq-003" "Emerging Markets Fund" "EMMK" ∈ equitiesInstruments ∧
    listInstruments none = InstrumentsResponse.data [] ∧
    listInstruments (some "not-a-class") = InstrumentsResponse.data [] ∧
    listInstruments (some "") = InstrumentsResponse.data [] ∧
    (∀ k : String, k ≠ "equities" → k ≠ "fixed-income" → k ≠ "alternatives" →
      k ≠ "multi-asset" → k ∉ objectProtoKeys →
      listInstruments (some k) = InstrumentsResponse.data []) ∧
    (∀ k : String, k ∈ objectProtoKeys →
      listInstruments (some k) = InstrumentsResponse.nonList) := by
  refine ⟨rfl, rfl, rfl, rfl, rfl, rfl, rfl, rfl, by decide, rfl, rfl, rfl, ?_, ?_⟩
  · intro k h1 h2 h3 h4 h5
    by_cases h0 : k = ""
    · subst h0
      rfl
    · simp [listInstruments, instrumentsByAssetClass, instrumentsOwn, h0, h1, h2, h3, h4, h5]
  · intro k hk
    fin_cases hk <;> decide

/-- C8 witness: a plain unknown key degrades to the empty list, while the
inherited key "toString" does not. -/
theorem instruments_unknown_empty_witness :
    listInstruments (some "bonds") = InstrumentsResponse.data [] ∧
    listInstruments (some "toString") = InstrumentsResponse.nonList :=
  ⟨instruments_unknown_empty.2.2.2.2.2.2.2.2.2.2.2.2.1 "bonds" (by decide) (by decide)
     (by decide) (by decide) (by decide),
   instruments_unknown_empty.2.2.2.2.2.2.2.2.2.2.2.2.2 "toString" (by decide)⟩

/-- C9: /api/bonds returns every stored bond projected to exactly
{id, name, issuer, rating}, in store order, and its total is the store
size, 5. -/
theorem bond_summaries_projection :
    listBondSummaries.data = bonds.map (fun b => BondSummary.mk b.id b.name b.issuer b.rating) ∧
    listBondSummaries.meta.total = bonds.length ∧
    bonds.length = 5 ∧
    listBondSummaries.data =
      [⟨"bond-001", "Aurora Transit 2036", "Aurora Transit Authority", BondRating.AA⟩,
       ⟨"bond-002", "Northbridge Health 2031", "Northbridge Health Group", BondRating.BBB⟩,
       ⟨"bond-003", "Solara Grid 2040", "Solara Power Holdings", BondRating.A⟩,
       ⟨"bond-004", "Meridian Ports 2029", "Meridian Ports & Logistics", BondRating.BB⟩,
       ⟨"bond-005", "Lumen Fiber 2038", "Lumen Fiber Networks", BondRating.A⟩] :=
  ⟨rfl, rfl, rfl, by decide⟩

/-- C10: the sectors list carries each distinct sector exactly once,
ordered by first occurrence in the store (Energy, Technology,
Industrials, Consumer Staples, Consumer Discretionary, …), and every
invocation of /api/stocks returns this same list. -/
theorem sectors_distinct_first_occurrence :
    sectors = ["Energy", "Technology", "Industrials", "Consumer Staples",
      "Consumer Discretionary", "Utilities", "Healthcare", "Financials",
      "Communication Services", "Materials"] ∧
    sectors.Nodup ∧
    sectors.Pairwise (fun x y => (stocks.map (fun st => st.sector)).indexOf x <
      (stocks.map (fun st => st.sector)).indexOf y) ∧
    (∀ q : StockQuery, (listStocks q).meta.sectors = sectors) :=
  ⟨by decide, by decide, by decide, fun _ => rfl⟩

end Vibes

-- quick sanity examples for the parser model (kept: they are theorems)
example : Vibes.jsNumber "84.12" = Vibes.JSNum.num (mkRat 8412 100) := by decide
example : Vibes.jsNumber "abc" = Vibes.JSNum.nan := by decide
example : Vibes.jsNumber "  -1.5e1  " = Vibes.JSNum.num (mkRat (-15) 1) := by decide
example : Vibes.jsNumber "0x10" = Vibes.JSNum.num (mkRat 16 1) := by decide
example : Vibes.jsNumber "-Infinity" = Vibes.JSNum.negInf := by decide
example : Vibes.jsNumber ".5" = Vibes.JSNum.num (mkRat 5 10) := by decide
example : Vibes.jsNumber "1." = Vibes.JSNum.num (mkRat 1 1) := by decide
example : Vibes.jsNumber "1.2.3" = Vibes.JSNum.nan := by decide
example : Vibes.jsNumber "-0x10" = Vibes.JSNum.nan := by decide
example : Vibes.hasSub "zend".data "zend zendara software".data = true := by decide
example : Vibes.hasSub "zend".data "aluna energy".data = false := by decide
example : Vibes.lowerChars "ZeNd".data = "zend".data := by decide
